import Mathlib

/-!
Shallow embedding of the fighter-game simulation core, in two variants:

* `Base` embeds `src/game5.js` (two human-controlled fighters);
* `Enh` embeds `src/unnamed/part_000` (the enhanced variant with dodge,
  combo bookkeeping and an AI controller).

JS numbers appearing in positions, velocities and health are idealized as
rationals; tick counters, cooldowns and millisecond timestamps only ever
hold integer values in the source, so they are embedded as `Int`.
The JS `%` operator on integers is truncated remainder; `x % 0` is `NaN`.
A `currentFrame` value of `none` models the `NaN` that arises from
`(currentFrame + 1) % 0` on an empty frame list; JS array indexing with
`NaN` (or an out-of-range index) yields `undefined`, modelled by `none`.
-/

namespace AOT

/-- A 2D vector of rationals, modelling the JS `{x, y}` records. -/
structure Vec2 where
  x : ℚ
  y : ℚ
deriving DecidableEq, Repr

/-- Facing direction, modelling the JS strings `"left"` / `"right"`. -/
inductive Dir
  | left
  | right
deriving DecidableEq, Repr

/-- The animation keys used by the source (the eight fixed states). -/
inductive AnimKey
  | idleRight
  | idleLeft
  | runRight
  | runLeft
  | jumpRight
  | jumpLeft
  | attackRight
  | attackLeft
deriving DecidableEq, Repr

/-- An animation record: a frame list (frames as abstract handles) plus an
optional per-animation frame-hold override (`frameDuration`). -/
structure Animation where
  frames : List Nat
  frameDuration : Option Int
deriving DecidableEq, Repr

/-- Canvas width, `canvas.width = 1024` in both variants. -/
def screenWidth : ℚ := 1024

/-- Canvas height, `canvas.height = 576` in both variants. -/
def screenHeight : ℚ := 576

/-- The gravity constant `0.7` of both variants. -/
def gravity : ℚ := 7/10

/-- JS test `a % b === 0` on integers: truncated remainder; when `b = 0`
the remainder is `NaN` and the comparison is false. -/
def jsModIsZero (a b : Int) : Bool :=
  if b = 0 then false else a.tmod b == 0

/-- JS `(c + 1) % len`: `none` (NaN) stays `NaN`, and `len = 0` produces
`NaN`; otherwise truncated remainder. -/
def advanceFrame (cf : Option Int) (len : Nat) : Option Int :=
  match cf with
  | none => none
  | some c => if len = 0 then none else some ((c + 1).tmod (len : Int))

/-- JS `frames[c]`: `undefined` (`none`) for a `NaN`, negative or
out-of-range index. -/
def frameAt (frames : List Nat) (cf : Option Int) : Option Nat :=
  match cf with
  | none => none
  | some c => if c < 0 then none else frames.get? c.toNat

/-- The idle animation key matching a facing direction, as selected by the
fallback in `draw` and the reassert in the dodge-end branch. -/
def idleKeyFor (d : Dir) : AnimKey :=
  match d with
  | Dir.right => AnimKey.idleRight
  | Dir.left => AnimKey.idleLeft

namespace Base

/-- Fighter state of the base variant (`src/game5.js`). -/
structure Fighter where
  position : Vec2
  velocity : Vec2
  animations : AnimKey → Option Animation
  currentAnimation : AnimKey
  scale : ℚ
  offset : Vec2
  width : ℚ
  height : ℚ
  health : ℚ
  maxHealth : ℚ
  isAttacking : Bool
  attackCooldown : Int
  attackDamage : ℚ
  framesElapsed : Int
  framesHold : Int
  currentFrame : Option Int
  lastDirection : Dir

/-- The `Fighter` constructor of the base variant with its field defaults
(width 50, height 150, health 100/100, damage 10, cooldown 0). -/
def mkFighter (position velocity : Vec2) (animations : AnimKey → Option Animation) : Fighter :=
  { position := position
    velocity := velocity
    animations := animations
    currentAnimation := AnimKey.idleRight
    scale := 1
    offset := ⟨0, 0⟩
    width := 50
    height := 150
    health := 100
    maxHealth := 100
    isAttacking := false
    attackCooldown := 0
    attackDamage := 10
    framesElapsed := 0
    framesHold := 10
    currentFrame := some 0
    lastDirection := Dir.right }

/-- Animation-frame bookkeeping section of `update`: increment
`framesElapsed` and, when the hold period elapses, advance `currentFrame`
cyclically over the active animation's frames (JS `frameDuration ||
framesHold` treats a zero override as absent). -/
def stepAnim (f : Fighter) : Fighter :=
  let fe := f.framesElapsed + 1
  let cf :=
    match f.animations f.currentAnimation with
    | none => f.currentFrame
    | some anim =>
      let fd :=
        match anim.frameDuration with
        | some d => if d = 0 then f.framesHold else d
        | none => f.framesHold
      if jsModIsZero fe fd then advanceFrame f.currentFrame anim.frames.length
      else f.currentFrame
  { f with framesElapsed := fe, currentFrame := cf }

/-- Physics section of `update`: Euler integration, horizontal clamping to
`[0, screenWidth - width]`, then the ground/gravity rule. -/
def stepPhysics (f : Fighter) : Fighter :=
  let px0 := f.position.x + f.velocity.x
  let py0 := f.position.y + f.velocity.y
  let px1 := if px0 < 0 then 0 else px0
  let px2 := if px1 + f.width > screenWidth then screenWidth - f.width else px1
  if py0 + f.height ≥ screenHeight then
    { f with position := ⟨px2, screenHeight - f.height⟩, velocity := ⟨f.velocity.x, 0⟩ }
  else
    { f with position := ⟨px2, py0⟩, velocity := ⟨f.velocity.x, f.velocity.y + gravity⟩ }

/-- Attack-cooldown section of `update`: decrement a positive cooldown,
otherwise (in an `else if`) clear `isAttacking`. -/
def stepCooldown (f : Fighter) : Fighter :=
  if f.attackCooldown > 0 then { f with attackCooldown := f.attackCooldown - 1 }
  else if f.isAttacking then { f with isAttacking := false }
  else f

/-- One `Fighter.update` tick of the base variant (the draw and health-bar
calls mutate no fighter state and are omitted). -/
def update (f : Fighter) : Fighter :=
  stepCooldown (stepPhysics (stepAnim f))

/-- The AABB hit test of `Fighter.attack` with the base `attackRange` of
100: the hitbox extends from the attacker's facing edge, and overlap is
tested strictly on both axes. -/
def hitTest (a t : Fighter) : Prop :=
  let attackRange : ℚ := 100
  let attackStartX :=
    if a.lastDirection = Dir.right then a.position.x + a.width else a.position.x - attackRange
  let attackEndX :=
    if a.lastDirection = Dir.right then a.position.x + a.width + attackRange else a.position.x
  attackEndX > t.position.x ∧ attackStartX < t.position.x + t.width ∧
    a.position.y < t.position.y + t.height ∧ a.position.y + a.height > t.position.y

instance (a t : Fighter) : Decidable (hitTest a t) := by
  unfold hitTest
  infer_instance

/-- `Fighter.attack` of the base variant: gated on `attackCooldown ≤ 0`;
on entry sets `isAttacking` and a 120-tick cooldown, then applies
`attackDamage` to the target when the hit test passes, clamping health at
0. Returns the (attacker, target) pair. -/
def attack (a t : Fighter) : Fighter × Fighter :=
  if a.attackCooldown ≤ 0 then
    let a' := { a with isAttacking := true, attackCooldown := 120 }
    if hitTest a' t then
      let h := t.health - a'.attackDamage
      (a', { t with health := if h < 0 then 0 else h })
    else (a', t)
  else (a, t)

/-- Edge-to-edge distance from the attacker's facing edge to the target's
near edge, along the attacker's facing axis. -/
def edgeGap (a t : Fighter) : ℚ :=
  if a.lastDirection = Dir.right then t.position.x - (a.position.x + a.width)
  else a.position.x - (t.position.x + t.width)

end Base

namespace Enh

/-- Fighter state of the enhanced variant (`src/unnamed/part_000`), with
the dodge and combo additions. -/
structure Fighter where
  position : Vec2
  velocity : Vec2
  animations : AnimKey → Option Animation
  currentAnimation : AnimKey
  scale : ℚ
  offset : Vec2
  width : ℚ
  height : ℚ
  health : ℚ
  maxHealth : ℚ
  isAttacking : Bool
  attackCooldown : Int
  attackDamage : ℚ
  isDodging : Bool
  dodgeCooldown : Int
  dodgeDuration : Int
  dodgeSpeed : ℚ
  canCombo : Bool
  comboCount : Int
  lastAttackTime : Int
  framesElapsed : Int
  framesHold : Int
  currentFrame : Option Int
  lastDirection : Dir

/-- The `Fighter` constructor of the enhanced variant with its field
defaults (health 200/200, damage 15, dodge and combo state zeroed; the
constructor ignores any extra option-object entries). -/
def mkFighter (position velocity : Vec2) (animations : AnimKey → Option Animation) : Fighter :=
  { position := position
    velocity := velocity
    animations := animations
    currentAnimation := AnimKey.idleRight
    scale := 1
    offset := ⟨0, 0⟩
    width := 50
    height := 150
    health := 200
    maxHealth := 200
    isAttacking := false
    attackCooldown := 0
    attackDamage := 15
    isDodging := false
    dodgeCooldown := 0
    dodgeDuration := 15
    dodgeSpeed := 12
    canCombo := false
    comboCount := 0
    lastAttackTime := 0
    framesElapsed := 0
    framesHold := 10
    currentFrame := some 0
    lastDirection := Dir.right }

/-- `Fighter.setAnimation`: switching keys resets `currentFrame` to 0;
re-setting the current key is a no-op. -/
def setAnimation (f : Fighter) (k : AnimKey) : Fighter :=
  if f.currentAnimation = k then f
  else { f with currentAnimation := k, currentFrame := some 0 }

/-- The idle-fallback frame of `draw`: frame 0 of the idle animation
matching `lastDirection`; `none` models the TypeError the source would
raise if that idle animation or its first frame were absent. -/
def fallbackFrame (f : Fighter) : Option Nat :=
  match f.animations (idleKeyFor f.lastDirection) with
  | none => none
  | some anim => anim.frames.get? 0

/-- `Fighter.draw` reduced to the frame it draws: the current animation's
current frame when present, else the idle fallback; `none` models a
faulting draw. -/
def draw (f : Fighter) : Option Nat :=
  match f.animations f.currentAnimation with
  | none => fallbackFrame f
  | some anim =>
    match frameAt anim.frames f.currentFrame with
    | none => fallbackFrame f
    | some fr => some fr

/-- Holds when `draw` takes its fallback path: the current animation is
missing, or its current frame is missing (NaN index, empty frame list, or
out-of-range index). -/
def curFrameMissing (f : Fighter) : Prop :=
  match f.animations f.currentAnimation with
  | none => True
  | some anim => frameAt anim.frames f.currentFrame = none

/-- Both idle animations exist and are non-empty, the precondition the
spec places on draw's fallback. -/
def idleOk (f : Fighter) : Prop :=
  (∃ a, f.animations AnimKey.idleRight = some a ∧ a.frames ≠ []) ∧
  (∃ a, f.animations AnimKey.idleLeft = some a ∧ a.frames ≠ [])

/-- Animation-frame bookkeeping section of `update`, identical to the base
variant's. -/
def stepAnim (f : Fighter) : Fighter :=
  let fe := f.framesElapsed + 1
  let cf :=
    match f.animations f.currentAnimation with
    | none => f.currentFrame
    | some anim =>
      let fd :=
        match anim.frameDuration with
        | some d => if d = 0 then f.framesHold else d
        | none => f.framesHold
      if jsModIsZero fe fd then advanceFrame f.currentFrame anim.frames.length
      else f.currentFrame
  { f with framesElapsed := fe, currentFrame := cf }

/-- Physics section of `update`, identical to the base variant's. -/
def stepPhysics (f : Fighter) : Fighter :=
  let px0 := f.position.x + f.velocity.x
  let py0 := f.position.y + f.velocity.y
  let px1 := if px0 < 0 then 0 else px0
  let px2 := if px1 + f.width > screenWidth then screenWidth - f.width else px1
  if py0 + f.height ≥ screenHeight then
    { f with position := ⟨px2, screenHeight - f.height⟩, velocity := ⟨f.velocity.x, 0⟩ }
  else
    { f with position := ⟨px2, py0⟩, velocity := ⟨f.velocity.x, f.velocity.y + gravity⟩ }

/-- Cooldown section of the enhanced `update`: decrement both positive
cooldowns, then, in a separate `if` on the already-decremented value,
clear `isAttacking` and open the combo window. -/
def stepCooldowns (f : Fighter) : Fighter :=
  let f1 := if f.attackCooldown > 0 then { f with attackCooldown := f.attackCooldown - 1 } else f
  let f2 :=
    if f1.dodgeCooldown > 0 then { f1 with dodgeCooldown := f1.dodgeCooldown - 1 } else f1
  if f2.attackCooldown ≤ 0 ∧ f2.isAttacking then
    { f2 with isAttacking := false, canCombo := true }
  else f2

/-- Dodge section of the enhanced `update`: while dodging, decrement
`dodgeDuration`; at zero, end the dodge, start the 45-tick dodge cooldown,
zero horizontal velocity and reassert the facing idle animation. -/
def stepDodge (f : Fighter) : Fighter :=
  if f.isDodging then
    let dd := f.dodgeDuration - 1
    if dd ≤ 0 then
      setAnimation
        { f with
          isDodging := false
          dodgeDuration := dd
          dodgeCooldown := 45
          velocity := ⟨0, f.velocity.y⟩ }
        (idleKeyFor f.lastDirection)
    else { f with dodgeDuration := dd }
  else f

/-- One `Fighter.update` tick of the enhanced variant. -/
def update (f : Fighter) : Fighter :=
  stepDodge (stepCooldowns (stepPhysics (stepAnim f)))

/-- The AABB hit test of the enhanced `Fighter.attack`, with the larger
`attackRange` of 120. -/
def hitTest (a t : Fighter) : Prop :=
  let attackRange : ℚ := 120
  let attackStartX :=
    if a.lastDirection = Dir.right then a.position.x + a.width else a.position.x - attackRange
  let attackEndX :=
    if a.lastDirection = Dir.right then a.position.x + a.width + attackRange else a.position.x
  attackEndX > t.position.x ∧ attackStartX < t.position.x + t.width ∧
    a.position.y < t.position.y + t.height ∧ a.position.y + a.height > t.position.y

instance (a t : Fighter) : Decidable (hitTest a t) := by
  unfold hitTest
  infer_instance

/-- `Fighter.attack` of the enhanced variant: gated on `attackCooldown ≤ 0`
and not dodging; computes the combo step from `Date.now()` (passed in as
`now`), sets the combo-scaled cooldown `30 - comboCount * 5`, records
`lastAttackTime`, then resolves the hit, clamping target health at 0. -/
def attack (a t : Fighter) (now : Int) : Fighter × Fighter :=
  if a.attackCooldown ≤ 0 ∧ ¬a.isDodging then
    let combo :=
      if now - a.lastAttackTime < 500 ∧ a.canCombo then (a.comboCount + 1).tmod 3 else 0
    let a' :=
      { a with
        isAttacking := true
        comboCount := combo
        attackCooldown := 30 - combo * 5
        lastAttackTime := now }
    if hitTest a' t then
      let h := t.health - a'.attackDamage
      (a', { t with health := if h < 0 then 0 else h })
    else (a', t)
  else (a, t)

/-- State of the enhanced variant's `AIController` that its `update` reads
or writes (the `state` tag, `comboStep`, `fatigue` and the attack-pattern
table are stored by the constructor but never consulted by `update`). -/
structure AIController where
  nextActionTime : Int
  difficulty : ℚ
  attackCooldown : Int

/-- Result of one `AIController.update` call: the controller, the
controlled fighter and the target after the call, plus whether the attack
branch fired (i.e. whether `fighter.attack(target)` was invoked). -/
structure AIResult where
  ai : AIController
  fighter : Fighter
  target : Fighter
  attacked : Bool

/-- One `AIController.update` call. `now` stands for `Date.now()`; `r1`
and `r2` are the two `Math.random()` draws (extended-range attack chance
and jump chance). A no-op until `now` reaches `nextActionTime`; then
either the attack branch (close range, or 30% chance at extended range)
or the movement/edge-avoidance/jump logic, faithfully including the final
unconditional `nextActionTime = now + 100` of the movement path. -/
def aiUpdate (ai : AIController) (fighter target : Fighter) (now : Int) (r1 r2 : ℚ) :
    AIResult :=
  if now < ai.nextActionTime then ⟨ai, fighter, target, false⟩
  else
    let distanceX := target.position.x - fighter.position.x
    let distanceY := target.position.y - fighter.position.y
    let absDistanceX := |distanceX|
    let absDistanceY := |distanceY|
    let direction := if distanceX > 0 then Dir.right else Dir.left
    let inAttackRange := absDistanceX < 150 ∧ absDistanceY < 100
    if inAttackRange ∨ (absDistanceX < 200 ∧ r1 < 3/10) then
      let attackAnim := if direction = Dir.right then AnimKey.attackRight else AnimKey.attackLeft
      let fighter1 := setAnimation fighter attackAnim
      let fighter2 :=
        match fighter1.animations attackAnim with
        | none =>
          { fighter1 with
            animations := fun k =>
              if k = attackAnim then some ⟨[], some 5⟩ else fighter1.animations k }
        | some _ => fighter1
      let fighter3 :=
        match fighter2.animations attackAnim with
        | some anim =>
          if anim.frameDuration = none then
            { fighter2 with
              animations := fun k =>
                if k = attackAnim then some { anim with frameDuration := some 5 }
                else fighter2.animations k }
          else fighter2
        | none => fighter2
      let res := attack fighter3 target now
      let fighter4 := res.1
      let target1 := res.2
      let ai1 := { ai with attackCooldown := 5, nextActionTime := now + 50 }
      let predictX := target1.position.x + target1.velocity.x * (7/10)
      let predictDistance := predictX - fighter4.position.x
      let fighter5 :=
        { fighter4 with
          velocity := ⟨if predictDistance > 0 then 3 else -3, fighter4.velocity.y⟩ }
      ⟨ai1, fighter5, target1, true⟩
    else
      let chaseSpeed : ℚ := 5
      let edgeThreshold : ℚ := 100
      let nearLeftEdge := fighter.position.x < edgeThreshold
      let nearRightEdge := fighter.position.x > screenWidth - fighter.width - edgeThreshold
      let fighter1 :=
        if (nearLeftEdge ∧ distanceX < 0) ∨ (nearRightEdge ∧ distanceX > 0) then
          let fa :=
            { fighter with
              velocity := ⟨if distanceX > 0 then -chaseSpeed else chaseSpeed, fighter.velocity.y⟩ }
          if fa.position.y + fa.height ≥ screenHeight then
            { fa with velocity := ⟨fa.velocity.x, -15⟩ }
          else fa
        else
          let predictX := target.position.x + target.velocity.x * (1/2)
          let predictDistance := predictX - fighter.position.x
          { fighter with
            velocity := ⟨if predictDistance > 0 then chaseSpeed else -chaseSpeed,
              fighter.velocity.y⟩ }
      let fighter2 :=
        setAnimation fighter1 (if fighter1.velocity.x > 0 then AnimKey.runRight else AnimKey.runLeft)
      let fighter3 := { fighter2 with lastDirection := direction }
      let jumped :=
        if fighter3.position.y + fighter3.height ≥ screenHeight then
          if absDistanceX > 80 ∨ (nearLeftEdge ∨ nearRightEdge) ∨ r2 < 2/5 then
            let fj := { fighter3 with velocity := ⟨fighter3.velocity.x * (9/5), -22⟩ }
            let fj2 :=
              setAnimation fj (if fj.lastDirection = Dir.right then AnimKey.jumpRight
                else AnimKey.jumpLeft)
            ({ ai with nextActionTime := now + 30 }, fj2)
          else (ai, fighter3)
        else (ai, fighter3)
      ⟨{ jumped.1 with nextActionTime := now + 100 }, jumped.2, target, false⟩

/-- Edge-to-edge distance from the attacker's facing edge to the target's
near edge, along the attacker's facing axis. -/
def edgeGap (a t : Fighter) : ℚ :=
  if a.lastDirection = Dir.right then t.position.x - (a.position.x + a.width)
  else a.position.x - (t.position.x + t.width)

end Enh

/-- An empty animation table, for concrete states whose animations are
irrelevant. -/
def noAnims : AnimKey → Option Animation := fun _ => none

/-- A base-variant attacker at `x = 100` on the ground, facing right
(constructor state: off cooldown, damage 10). -/
def bFighterA : Base.Fighter := Base.mkFighter ⟨100, 426⟩ ⟨0, 0⟩ noAnims

/-- A base-variant target whose left edge is exactly `attackRange = 100`
from the attacker's right edge (edge-to-edge gap 100). -/
def bTargetGap100 : Base.Fighter := Base.mkFighter ⟨250, 426⟩ ⟨0, 0⟩ noAnims

/-- A base-variant target at edge-to-edge gap 99. -/
def bTargetGap99 : Base.Fighter := Base.mkFighter ⟨249, 426⟩ ⟨0, 0⟩ noAnims

/-- A base-variant target in range with only 5 health left (less than the
attacker's 10 damage). -/
def bTargetLow : Base.Fighter :=
  { Base.mkFighter ⟨160, 426⟩ ⟨0, 0⟩ noAnims with health := 5 }

/-- A base-variant fighter one tick from the end of its attack cooldown,
still attacking. -/
def bCooldown1 : Base.Fighter :=
  { Base.mkFighter ⟨100, 426⟩ ⟨0, 0⟩ noAnims with attackCooldown := 1, isAttacking := true }

/-- A base-variant fighter high above the ground with zero velocity. -/
def bAirborne : Base.Fighter := Base.mkFighter ⟨100, 0⟩ ⟨0, 0⟩ noAnims

/-- An enhanced-variant attacker at `x = 100` on the ground, facing right
(constructor state: off cooldown, not dodging, damage 15). -/
def eFighterA : Enh.Fighter := Enh.mkFighter ⟨100, 426⟩ ⟨0, 0⟩ noAnims

/-- An enhanced-variant target at edge-to-edge gap exactly
`attackRange = 120`. -/
def eTargetGap120 : Enh.Fighter := Enh.mkFighter ⟨270, 426⟩ ⟨0, 0⟩ noAnims

/-- An enhanced-variant target at edge-to-edge gap 119. -/
def eTargetGap119 : Enh.Fighter := Enh.mkFighter ⟨269, 426⟩ ⟨0, 0⟩ noAnims

/-- An enhanced-variant target well within range (gap 50). -/
def eTargetNear : Enh.Fighter := Enh.mkFighter ⟨200, 426⟩ ⟨0, 0⟩ noAnims

/-- An enhanced-variant target in range with only 5 health left (less than
the attacker's 15 damage). -/
def eTargetLow : Enh.Fighter :=
  { Enh.mkFighter ⟨200, 426⟩ ⟨0, 0⟩ noAnims with health := 5 }

/-- An enhanced-variant fighter in the middle of a dodge. -/
def eDodging : Enh.Fighter :=
  { Enh.mkFighter ⟨100, 426⟩ ⟨0, 0⟩ noAnims with isDodging := true }

/-- An enhanced-variant fighter one tick from the end of its attack
cooldown, still attacking. -/
def eCooldown1 : Enh.Fighter :=
  { Enh.mkFighter ⟨100, 426⟩ ⟨0, 0⟩ noAnims with attackCooldown := 1, isAttacking := true }

/-- A base-variant fighter already off cooldown but still flagged
attacking. -/
def bAttackDone : Base.Fighter :=
  { Base.mkFighter ⟨100, 426⟩ ⟨0, 0⟩ noAnims with isAttacking := true }

/-- An enhanced-variant fighter high above the ground with zero velocity. -/
def eAirborne : Enh.Fighter := Enh.mkFighter ⟨100, 0⟩ ⟨0, 0⟩ noAnims

/-- Attacker state after the first attack of the combo scenario, issued at
`now = 1000` from the fresh constructor state. -/
def comboA1 : Enh.Fighter := (Enh.attack eFighterA eTargetGap120 1000).1

/-- Attacker state after the second attack, issued at `now = 1100` (100 ms
later) once the first attack has resolved: cooldown expired and the combo
window open (`canCombo = true`). -/
def comboA2 : Enh.Fighter :=
  (Enh.attack { comboA1 with attackCooldown := 0, canCombo := true } eTargetGap120 1100).1

/-- Attacker state after the third attack, issued at `now = 1200`, again
after resolution of the second. -/
def comboA3 : Enh.Fighter :=
  (Enh.attack { comboA2 with attackCooldown := 0, canCombo := true } eTargetGap120 1200).1

/-- An animation table holding one-frame idle animations and the AI
controller's lazily synthesized empty-frame attack placeholder. -/
def placeholderAnims : AnimKey → Option Animation := fun k =>
  match k with
  | AnimKey.idleRight => some ⟨[7], none⟩
  | AnimKey.idleLeft => some ⟨[8], none⟩
  | AnimKey.attackRight => some ⟨[], some 5⟩
  | _ => none

/-- An enhanced-variant fighter whose current animation is the empty-frame
attack placeholder. -/
def ePlaceholder : Enh.Fighter :=
  { Enh.mkFighter ⟨100, 426⟩ ⟨0, 0⟩ placeholderAnims with
    currentAnimation := AnimKey.attackRight }

/-- An AI controller whose action gate is open (`nextActionTime = 0`),
with the constructor's difficulty 4 and local cooldown 0. -/
def aiReady : Enh.AIController := ⟨0, 4, 0⟩

/-- The AI-controlled fighter of the close-range scenario, grounded at
`x = 400`. -/
def eAIFighter : Enh.Fighter := Enh.mkFighter ⟨400, 426⟩ ⟨0, 0⟩ noAnims

/-- The AI's target, grounded 60 px to the right of the controlled
fighter. -/
def eAITarget : Enh.Fighter := Enh.mkFighter ⟨460, 426⟩ ⟨0, 0⟩ noAnims

namespace Base

theorem stepAnim_position_b (f : Fighter) : (stepAnim f).position = f.position := rfl

theorem stepAnim_velocity_b (f : Fighter) : (stepAnim f).velocity = f.velocity := rfl

theorem stepAnim_health_b (f : Fighter) : (stepAnim f).health = f.health := rfl

theorem stepAnim_width_b (f : Fighter) : (stepAnim f).width = f.width := rfl

theorem stepAnim_height_b (f : Fighter) : (stepAnim f).height = f.height := rfl

theorem stepPhysics_health_b (f : Fighter) : (stepPhysics f).health = f.health := by
  simp only [stepPhysics]
  split <;> rfl

theorem stepPhysics_height_b (f : Fighter) : (stepPhysics f).height = f.height := by
  simp only [stepPhysics]
  split <;> rfl

theorem stepCooldown_health (f : Fighter) : (stepCooldown f).health = f.health := by
  simp only [stepCooldown]
  split
  · rfl
  · split <;> rfl

theorem stepCooldown_position (f : Fighter) : (stepCooldown f).position = f.position := by
  simp only [stepCooldown]
  split
  · rfl
  · split <;> rfl

theorem stepCooldown_velocity (f : Fighter) : (stepCooldown f).velocity = f.velocity := by
  simp only [stepCooldown]
  split
  · rfl
  · split <;> rfl

theorem stepCooldown_height (f : Fighter) : (stepCooldown f).height = f.height := by
  simp only [stepCooldown]
  split
  · rfl
  · split <;> rfl

theorem update_health_b (f : Fighter) : (update f).health = f.health := by
  simp only [update, stepCooldown_health, stepPhysics_health_b, stepAnim_health_b]

theorem update_height_b (f : Fighter) : (update f).height = f.height := by
  simp only [update, stepCooldown_height, stepPhysics_height_b, stepAnim_height_b]

theorem stepPhysics_x_bounds_b (f : Fighter) (hw : f.width ≤ screenWidth) :
    0 ≤ (stepPhysics f).position.x ∧ (stepPhysics f).position.x ≤ screenWidth - f.width := by
  simp only [stepPhysics]
  split <;> simp only [] <;> split_ifs <;> constructor <;> linarith

theorem stepPhysics_y_bound_b (f : Fighter) :
    (stepPhysics f).position.y + f.height ≤ screenHeight := by
  simp only [stepPhysics]
  split <;> simp only []
  · linarith
  · linarith [ (by assumption : ¬ f.position.y + f.velocity.y + f.height ≥ screenHeight) ]

theorem update_position_b (f : Fighter) :
    (update f).position = (stepPhysics (stepAnim f)).position := by
  simp only [update, stepCooldown_position]

theorem update_x_bounds_b (f : Fighter) (hw : f.width ≤ screenWidth) :
    0 ≤ (update f).position.x ∧ (update f).position.x ≤ screenWidth - f.width := by
  rw [update_position_b]
  have h := stepPhysics_x_bounds_b (stepAnim f) (by rw [stepAnim_width_b]; exact hw)
  rwa [stepAnim_width_b] at h

theorem update_y_bound_b (f : Fighter) :
    (update f).position.y + f.height ≤ screenHeight := by
  rw [update_position_b]
  have h := stepPhysics_y_bound_b (stepAnim f)
  rwa [stepAnim_height_b] at h

theorem stepAnim_attackCooldown_b (f : Fighter) :
    (stepAnim f).attackCooldown = f.attackCooldown := rfl

theorem stepAnim_isAttacking_b (f : Fighter) : (stepAnim f).isAttacking = f.isAttacking := rfl

theorem stepPhysics_attackCooldown_b (f : Fighter) :
    (stepPhysics f).attackCooldown = f.attackCooldown := by
  simp only [stepPhysics]
  split <;> rfl

theorem stepPhysics_isAttacking_b (f : Fighter) :
    (stepPhysics f).isAttacking = f.isAttacking := by
  simp only [stepPhysics]
  split <;> rfl

theorem stepPhysics_velocity_y_b (f : Fighter) (h : (stepPhysics f).position.y + f.height < screenHeight) :
    (stepPhysics f).velocity.y = f.velocity.y + gravity := by
  simp only [stepPhysics] at h ⊢
  by_cases hg : f.position.y + f.velocity.y + f.height ≥ screenHeight
  · rw [if_pos hg] at h
    simp only [] at h
    linarith
  · rw [if_neg hg]

theorem update_cooldown_pos (f : Fighter) (h : 0 < f.attackCooldown) :
    (update f).isAttacking = f.isAttacking ∧ (update f).attackCooldown = f.attackCooldown - 1 := by
  simp only [update, stepCooldown]
  rw [if_pos]
  · constructor
    · simp only [stepPhysics_isAttacking_b, stepAnim_isAttacking_b]
    · simp only [stepPhysics_attackCooldown_b, stepAnim_attackCooldown_b]
  · rw [stepPhysics_attackCooldown_b, stepAnim_attackCooldown_b]
    exact h

theorem update_isAttacking_false (f : Fighter) (h : f.attackCooldown ≤ 0) :
    (update f).isAttacking = false := by
  simp only [update, stepCooldown]
  rw [if_neg]
  · split
    · rfl
    · simp only [stepPhysics_isAttacking_b, stepAnim_isAttacking_b]
      rename_i hb
      simp only [stepPhysics_isAttacking_b, stepAnim_isAttacking_b] at hb
      simp [hb]
  · rw [stepPhysics_attackCooldown_b, stepAnim_attackCooldown_b]
    omega

theorem update_velocity_y_airborne_b (f : Fighter)
    (h : (update f).position.y + f.height < screenHeight) :
    (update f).velocity.y = f.velocity.y + gravity := by
  rw [update_position_b] at h
  simp only [update, stepCooldown_velocity]
  have h2 : (stepPhysics (stepAnim f)).position.y + (stepAnim f).height < screenHeight := by
    rwa [stepAnim_height_b]
  have h3 := stepPhysics_velocity_y_b (stepAnim f) h2
  rw [h3, stepAnim_velocity_b]

theorem attack_noop_b (a t : Fighter) (h : 0 < a.attackCooldown) : attack a t = (a, t) := by
  simp only [attack]
  rw [if_neg (by omega)]

theorem attack_fst_frame_b (a t : Fighter) :
    (attack a t).1 =
      { a with
        isAttacking := (attack a t).1.isAttacking
        attackCooldown := (attack a t).1.attackCooldown } := by
  simp only [attack]
  split_ifs <;> rfl

theorem attack_snd_frame_b (a t : Fighter) :
    (attack a t).2 = { t with health := (attack a t).2.health } := by
  simp only [attack]
  split_ifs <;> rfl

theorem attack_hit_health_b (a t : Fighter) (hc : a.attackCooldown ≤ 0) (hh : hitTest a t) :
    (attack a t).2.health =
      if t.health - a.attackDamage < 0 then 0 else t.health - a.attackDamage := by
  simp only [attack]
  rw [if_pos hc, if_pos]
  exact hh

theorem attack_miss_health_b (a t : Fighter) (hm : ¬hitTest a t) :
    (attack a t).2.health = t.health := by
  simp only [attack]
  split_ifs with h1 h2 h3 <;> try rfl
  all_goals exact absurd h2 hm

theorem attack_health_bounds_b (a t : Fighter) (h0 : 0 ≤ t.health) (h1 : t.health ≤ t.maxHealth)
    (hd : 0 ≤ a.attackDamage) :
    0 ≤ (attack a t).2.health ∧ (attack a t).2.health ≤ t.maxHealth := by
  simp only [attack]
  split_ifs with e1 e2 e3 <;> constructor <;> simp only [] <;> linarith

theorem attack_overkill_b (a t : Fighter) (hc : a.attackCooldown ≤ 0) (hh : hitTest a t)
    (hov : t.health < a.attackDamage) : (attack a t).2.health = 0 := by
  rw [attack_hit_health_b a t hc hh, if_pos (by linarith)]

theorem hitTest_gap_b (a t : Fighter) (hg : 0 ≤ edgeGap a t) (htw : 0 < t.width)
    (hv1 : a.position.y < t.position.y + t.height)
    (hv2 : t.position.y < a.position.y + a.height) :
    hitTest a t ↔ edgeGap a t < 100 := by
  simp only [hitTest, edgeGap] at hg ⊢
  by_cases hd : a.lastDirection = Dir.right <;> simp only [hd, if_true, if_false] at hg ⊢
  · constructor
    · rintro ⟨h1, h2, h3, h4⟩
      linarith
    · intro h
      exact ⟨by linarith, by linarith, hv1, hv2⟩
  · constructor
    · rintro ⟨h1, h2, h3, h4⟩
      linarith
    · intro h
      exact ⟨by linarith, by linarith, hv1, hv2⟩

end Base

namespace Enh

theorem setAnimation_health (f : Fighter) (k : AnimKey) :
    (setAnimation f k).health = f.health := by
  simp only [setAnimation]
  split <;> rfl

theorem setAnimation_isAttacking (f : Fighter) (k : AnimKey) :
    (setAnimation f k).isAttacking = f.isAttacking := by
  simp only [setAnimation]
  split <;> rfl

theorem setAnimation_canCombo (f : Fighter) (k : AnimKey) :
    (setAnimation f k).canCombo = f.canCombo := by
  simp only [setAnimation]
  split <;> rfl

theorem setAnimation_position (f : Fighter) (k : AnimKey) :
    (setAnimation f k).position = f.position := by
  simp only [setAnimation]
  split <;> rfl

theorem setAnimation_velocity (f : Fighter) (k : AnimKey) :
    (setAnimation f k).velocity = f.velocity := by
  simp only [setAnimation]
  split <;> rfl

theorem setAnimation_animations (f : Fighter) (k : AnimKey) :
    (setAnimation f k).animations = f.animations := by
  simp only [setAnimation]
  split <;> rfl

theorem setAnimation_lastDirection (f : Fighter) (k : AnimKey) :
    (setAnimation f k).lastDirection = f.lastDirection := by
  simp only [setAnimation]
  split <;> rfl

theorem setAnimation_height (f : Fighter) (k : AnimKey) :
    (setAnimation f k).height = f.height := by
  simp only [setAnimation]
  split <;> rfl

theorem stepAnim_position_e (f : Fighter) : (stepAnim f).position = f.position := rfl

theorem stepAnim_velocity_e (f : Fighter) : (stepAnim f).velocity = f.velocity := rfl

theorem stepAnim_health_e (f : Fighter) : (stepAnim f).health = f.health := rfl

theorem stepAnim_width_e (f : Fighter) : (stepAnim f).width = f.width := rfl

theorem stepAnim_height_e (f : Fighter) : (stepAnim f).height = f.height := rfl

theorem stepAnim_attackCooldown_e (f : Fighter) :
    (stepAnim f).attackCooldown = f.attackCooldown := rfl

theorem stepAnim_isAttacking_e (f : Fighter) : (stepAnim f).isAttacking = f.isAttacking := rfl

theorem stepAnim_isDodging (f : Fighter) : (stepAnim f).isDodging = f.isDodging := rfl

theorem stepAnim_animations (f : Fighter) : (stepAnim f).animations = f.animations := rfl

theorem stepAnim_lastDirection (f : Fighter) :
    (stepAnim f).lastDirection = f.lastDirection := rfl

theorem stepPhysics_health_e (f : Fighter) : (stepPhysics f).health = f.health := by
  simp only [stepPhysics]
  split <;> rfl

theorem stepPhysics_height_e (f : Fighter) : (stepPhysics f).height = f.height := by
  simp only [stepPhysics]
  split <;> rfl

theorem stepPhysics_attackCooldown_e (f : Fighter) :
    (stepPhysics f).attackCooldown = f.attackCooldown := by
  simp only [stepPhysics]
  split <;> rfl

theorem stepPhysics_isAttacking_e (f : Fighter) :
    (stepPhysics f).isAttacking = f.isAttacking := by
  simp only [stepPhysics]
  split <;> rfl

theorem stepPhysics_isDodging (f : Fighter) : (stepPhysics f).isDodging = f.isDodging := by
  simp only [stepPhysics]
  split <;> rfl

theorem stepPhysics_canCombo (f : Fighter) : (stepPhysics f).canCombo = f.canCombo := by
  simp only [stepPhysics]
  split <;> rfl

theorem stepPhysics_animations (f : Fighter) :
    (stepPhysics f).animations = f.animations := by
  simp only [stepPhysics]
  split <;> rfl

theorem stepPhysics_lastDirection (f : Fighter) :
    (stepPhysics f).lastDirection = f.lastDirection := by
  simp only [stepPhysics]
  split <;> rfl

theorem stepPhysics_velocity_y_e (f : Fighter)
    (h : (stepPhysics f).position.y + f.height < screenHeight) :
    (stepPhysics f).velocity.y = f.velocity.y + gravity := by
  simp only [stepPhysics] at h ⊢
  by_cases hg : f.position.y + f.velocity.y + f.height ≥ screenHeight
  · rw [if_pos hg] at h
    simp only [] at h
    linarith
  · rw [if_neg hg]

theorem stepPhysics_x_bounds_e (f : Fighter) (hw : f.width ≤ screenWidth) :
    0 ≤ (stepPhysics f).position.x ∧ (stepPhysics f).position.x ≤ screenWidth - f.width := by
  simp only [stepPhysics]
  split <;> simp only [] <;> split_ifs <;> constructor <;> linarith

theorem stepPhysics_y_bound_e (f : Fighter) :
    (stepPhysics f).position.y + f.height ≤ screenHeight := by
  simp only [stepPhysics]
  split <;> simp only []
  · linarith
  · linarith [ (by assumption : ¬ f.position.y + f.velocity.y + f.height ≥ screenHeight) ]

theorem stepCooldowns_health (f : Fighter) : (stepCooldowns f).health = f.health := by
  simp only [stepCooldowns]
  split_ifs <;> rfl

theorem stepCooldowns_position (f : Fighter) : (stepCooldowns f).position = f.position := by
  simp only [stepCooldowns]
  split_ifs <;> rfl

theorem stepCooldowns_velocity (f : Fighter) : (stepCooldowns f).velocity = f.velocity := by
  simp only [stepCooldowns]
  split_ifs <;> rfl

theorem stepCooldowns_height (f : Fighter) : (stepCooldowns f).height = f.height := by
  simp only [stepCooldowns]
  split_ifs <;> rfl

theorem stepCooldowns_animations (f : Fighter) :
    (stepCooldowns f).animations = f.animations := by
  simp only [stepCooldowns]
  split_ifs <;> rfl

theorem stepCooldowns_lastDirection (f : Fighter) :
    (stepCooldowns f).lastDirection = f.lastDirection := by
  simp only [stepCooldowns]
  split_ifs <;> rfl

theorem stepCooldowns_isDodging (f : Fighter) :
    (stepCooldowns f).isDodging = f.isDodging := by
  simp only [stepCooldowns]
  split_ifs <;> rfl

theorem stepDodge_health (f : Fighter) : (stepDodge f).health = f.health := by
  simp only [stepDodge]
  split_ifs <;> simp [setAnimation_health]

theorem stepDodge_position (f : Fighter) : (stepDodge f).position = f.position := by
  simp only [stepDodge]
  split_ifs <;> simp [setAnimation_position]

theorem stepDodge_velocity_y (f : Fighter) : (stepDodge f).velocity.y = f.velocity.y := by
  simp only [stepDodge]
  split_ifs <;> simp [setAnimation_velocity]

theorem stepDodge_height (f : Fighter) : (stepDodge f).height = f.height := by
  simp only [stepDodge]
  split_ifs <;> simp [setAnimation_height]

theorem stepDodge_isAttacking (f : Fighter) :
    (stepDodge f).isAttacking = f.isAttacking := by
  simp only [stepDodge]
  split_ifs <;> simp [setAnimation_isAttacking]

theorem stepDodge_canCombo (f : Fighter) : (stepDodge f).canCombo = f.canCombo := by
  simp only [stepDodge]
  split_ifs <;> simp [setAnimation_canCombo]

theorem stepDodge_attackCooldown (f : Fighter) :
    (stepDodge f).attackCooldown = f.attackCooldown := by
  simp only [stepDodge]
  split_ifs <;> first | rfl | simp only [setAnimation]
  split <;> rfl

theorem stepDodge_animations (f : Fighter) : (stepDodge f).animations = f.animations := by
  simp only [stepDodge]
  split_ifs <;> simp [setAnimation_animations]

theorem stepDodge_lastDirection (f : Fighter) :
    (stepDodge f).lastDirection = f.lastDirection := by
  simp only [stepDodge]
  split_ifs <;> simp [setAnimation_lastDirection]

theorem update_health_e (f : Fighter) : (update f).health = f.health := by
  simp only [update, stepDodge_health, stepCooldowns_health, stepPhysics_health_e,
    stepAnim_health_e]

theorem update_height_e (f : Fighter) : (update f).height = f.height := by
  simp only [update, stepDodge_height, stepCooldowns_height, stepPhysics_height_e,
    stepAnim_height_e]

theorem update_animations (f : Fighter) : (update f).animations = f.animations := by
  simp only [update, stepDodge_animations, stepCooldowns_animations, stepPhysics_animations,
    stepAnim_animations]

theorem update_lastDirection (f : Fighter) :
    (update f).lastDirection = f.lastDirection := by
  simp only [update, stepDodge_lastDirection, stepCooldowns_lastDirection,
    stepPhysics_lastDirection, stepAnim_lastDirection]

theorem update_position_e (f : Fighter) :
    (update f).position = (stepPhysics (stepAnim f)).position := by
  simp only [update, stepDodge_position, stepCooldowns_position]

theorem update_x_bounds_e (f : Fighter) (hw : f.width ≤ screenWidth) :
    0 ≤ (update f).position.x ∧ (update f).position.x ≤ screenWidth - f.width := by
  rw [update_position_e]
  have h := stepPhysics_x_bounds_e (stepAnim f) (by rw [stepAnim_width_e]; exact hw)
  rwa [stepAnim_width_e] at h

theorem update_y_bound_e (f : Fighter) :
    (update f).position.y + f.height ≤ screenHeight := by
  rw [update_position_e]
  have h := stepPhysics_y_bound_e (stepAnim f)
  rwa [stepAnim_height_e] at h

theorem update_velocity_y_airborne_e (f : Fighter)
    (h : (update f).position.y + f.height < screenHeight) :
    (update f).velocity.y = f.velocity.y + gravity := by
  rw [update_position_e] at h
  simp only [update, stepDodge_velocity_y]
  rw [show (stepCooldowns (stepPhysics (stepAnim f))).velocity
      = (stepPhysics (stepAnim f)).velocity from stepCooldowns_velocity _]
  have h2 : (stepPhysics (stepAnim f)).position.y + (stepAnim f).height < screenHeight := by
    rwa [stepAnim_height_e]
  have h3 := stepPhysics_velocity_y_e (stepAnim f) h2
  rw [h3, stepAnim_velocity_e]

theorem stepCooldowns_clears (f : Fighter) (hc : f.attackCooldown ≤ 1)
    (ha : f.isAttacking = true) :
    (stepCooldowns f).isAttacking = false ∧ (stepCooldowns f).canCombo = true ∧
      (stepCooldowns f).attackCooldown = f.attackCooldown - (if 0 < f.attackCooldown then 1 else 0) := by
  simp only [stepCooldowns]
  split_ifs with h1 h2 h3 h4 h5 h6 h7 <;> simp_all

theorem update_clears (f : Fighter) (hc : f.attackCooldown ≤ 1) (ha : f.isAttacking = true) :
    (update f).isAttacking = false ∧ (update f).canCombo = true := by
  simp only [update, stepDodge_isAttacking, stepDodge_canCombo]
  have hc' : (stepPhysics (stepAnim f)).attackCooldown ≤ 1 := by
    rwa [stepPhysics_attackCooldown_e, stepAnim_attackCooldown_e]
  have ha' : (stepPhysics (stepAnim f)).isAttacking = true := by
    rwa [stepPhysics_isAttacking_e, stepAnim_isAttacking_e]
  have h := stepCooldowns_clears _ hc' ha'
  exact ⟨h.1, h.2.1⟩

theorem update_attackCooldown_dec (f : Fighter) (h : 0 < f.attackCooldown) :
    (update f).attackCooldown = f.attackCooldown - 1 := by
  simp only [update, stepDodge_attackCooldown, stepCooldowns]
  split_ifs <;>
    simp_all [stepPhysics_attackCooldown_e, stepAnim_attackCooldown_e,
      stepPhysics_isAttacking_e, stepAnim_isAttacking_e]

theorem attack_noop_e (a t : Fighter) (now : Int)
    (h : 0 < a.attackCooldown ∨ a.isDodging = true) : attack a t now = (a, t) := by
  simp only [attack]
  rw [if_neg]
  rintro ⟨h1, h2⟩
  rcases h with h | h
  · omega
  · exact h2 h

theorem attack_fst_frame_e (a t : Fighter) (now : Int) :
    (attack a t now).1 =
      { a with
        isAttacking := (attack a t now).1.isAttacking
        attackCooldown := (attack a t now).1.attackCooldown
        comboCount := (attack a t now).1.comboCount
        lastAttackTime := (attack a t now).1.lastAttackTime } := by
  simp only [attack]
  split_ifs <;> rfl

theorem attack_snd_frame_e (a t : Fighter) (now : Int) :
    (attack a t now).2 = { t with health := (attack a t now).2.health } := by
  simp only [attack]
  split_ifs <;> rfl

theorem attack_combo_char (a t : Fighter) (now : Int) (hc : a.attackCooldown ≤ 0)
    (hd : a.isDodging = false) :
    (attack a t now).1.comboCount =
      (if now - a.lastAttackTime < 500 ∧ a.canCombo then (a.comboCount + 1).tmod 3 else 0) ∧
    (attack a t now).1.attackCooldown = 30 - (attack a t now).1.comboCount * 5 ∧
    (attack a t now).1.lastAttackTime = now ∧
    (attack a t now).1.isAttacking = true := by
  simp only [attack]
  rw [if_pos ⟨hc, by simp [hd]⟩]
  split_ifs <;> simp_all

theorem attack_hit_health_e (a t : Fighter) (now : Int) (hc : a.attackCooldown ≤ 0)
    (hd : a.isDodging = false) (hh : hitTest a t) :
    (attack a t now).2.health =
      if t.health - a.attackDamage < 0 then 0 else t.health - a.attackDamage := by
  simp only [attack]
  rw [if_pos ⟨hc, by simp [hd]⟩, if_pos]
  exact hh

theorem attack_miss_health_e (a t : Fighter) (now : Int) (hm : ¬hitTest a t) :
    (attack a t now).2.health = t.health := by
  simp only [attack]
  split_ifs <;> first
    | rfl
    | (exfalso; apply hm; assumption)

theorem attack_health_bounds_e (a t : Fighter) (now : Int) (h0 : 0 ≤ t.health)
    (h1 : t.health ≤ t.maxHealth) (hd : 0 ≤ a.attackDamage) :
    0 ≤ (attack a t now).2.health ∧ (attack a t now).2.health ≤ t.maxHealth := by
  simp only [attack]
  split_ifs with e1 e2 e3 <;> constructor <;> simp only [] <;> linarith

theorem attack_overkill_e (a t : Fighter) (now : Int) (hc : a.attackCooldown ≤ 0)
    (hd : a.isDodging = false) (hh : hitTest a t) (hov : t.health < a.attackDamage) :
    (attack a t now).2.health = 0 := by
  rw [attack_hit_health_e a t now hc hd hh, if_pos (by linarith)]

theorem fallbackFrame_isSome (f : Fighter) (h : idleOk f) : (fallbackFrame f).isSome := by
  obtain ⟨⟨aR, haR, hneR⟩, ⟨aL, haL, hneL⟩⟩ := h
  unfold fallbackFrame
  cases hd : f.lastDirection <;> simp only [idleKeyFor]
  · rw [haL]
    show (aL.frames.get? 0).isSome
    cases hL : aL.frames with
    | nil => exact absurd hL hneL
    | cons x xs => rfl
  · rw [haR]
    show (aR.frames.get? 0).isSome
    cases hR : aR.frames with
    | nil => exact absurd hR hneR
    | cons x xs => rfl

theorem draw_missing (f : Fighter) (h : curFrameMissing f) : draw f = fallbackFrame f := by
  unfold draw
  unfold curFrameMissing at h
  cases hcur : f.animations f.currentAnimation with
  | none => rfl
  | some anim =>
    rw [hcur] at h
    simp only [h]

theorem draw_isSome (f : Fighter) (h : idleOk f) : (draw f).isSome := by
  have hfb := fallbackFrame_isSome f h
  unfold draw
  cases hcur : f.animations f.currentAnimation with
  | none => exact hfb
  | some anim =>
    show (match frameAt anim.frames f.currentFrame with
          | none => fallbackFrame f
          | some fr => some fr).isSome = true
    cases hfr : frameAt anim.frames f.currentFrame with
    | none => exact hfb
    | some fr => rfl

theorem idleOk_update (f : Fighter) (h : idleOk f) : idleOk (update f) := by
  unfold idleOk at h ⊢
  rwa [update_animations]

theorem hitTest_gap_e (a t : Fighter) (hg : 0 ≤ edgeGap a t) (htw : 0 < t.width)
    (hv1 : a.position.y < t.position.y + t.height)
    (hv2 : t.position.y < a.position.y + a.height) :
    hitTest a t ↔ edgeGap a t < 120 := by
  simp only [hitTest, edgeGap] at hg ⊢
  by_cases hd : a.lastDirection = Dir.right <;> simp only [hd, if_true, if_false] at hg ⊢
  · constructor
    · rintro ⟨h1, h2, h3, h4⟩
      linarith
    · intro h
      exact ⟨by linarith, by linarith, hv1, hv2⟩
  · constructor
    · rintro ⟨h1, h2, h3, h4⟩
      linarith
    · intro h
      exact ⟨by linarith, by linarith, hv1, hv2⟩

theorem aiUpdate_attacks (ai : AIController) (fighter target : Fighter) (now : Int)
    (r1 r2 : ℚ) (hgate : ai.nextActionTime ≤ now)
    (hdx : |target.position.x - fighter.position.x| < 150)
    (hdy : |target.position.y - fighter.position.y| < 100) :
    (aiUpdate ai fighter target now r1 r2).attacked = true := by
  simp only [aiUpdate]
  rw [if_neg (by omega), if_pos (Or.inl ⟨hdx, hdy⟩)]

end Enh

theorem Base.iterate_height_b (f : Base.Fighter) (n : Nat) :
    (Base.update^[n] f).height = f.height := by
  induction n with
  | zero => rfl
  | succ m ih => rw [Function.iterate_succ_apply', Base.update_height_b, ih]

theorem Base.iterate_vy_b (f : Base.Fighter) (n : Nat)
    (hair : ∀ k, k ≤ n → (Base.update^[k] f).position.y + f.height < screenHeight) :
    (Base.update^[n] f).velocity.y = f.velocity.y + gravity * n := by
  induction n with
  | zero => simp
  | succ m ih =>
    have h1 := ih fun k hk => hair k (hk.trans (Nat.le_succ m))
    have hs : (Base.update (Base.update^[m] f)).position.y + (Base.update^[m] f).height
        < screenHeight := by
      have h0 := hair (m + 1) le_rfl
      rw [Function.iterate_succ_apply'] at h0
      rwa [Base.iterate_height_b]
    have h2 := Base.update_velocity_y_airborne_b _ hs
    rw [Function.iterate_succ_apply', h2, h1]
    push_cast
    ring

theorem Enh.iterate_height_e (f : Enh.Fighter) (n : Nat) :
    (Enh.update^[n] f).height = f.height := by
  induction n with
  | zero => rfl
  | succ m ih => rw [Function.iterate_succ_apply', Enh.update_height_e, ih]

theorem Enh.iterate_vy_e (f : Enh.Fighter) (n : Nat)
    (hair : ∀ k, k ≤ n → (Enh.update^[k] f).position.y + f.height < screenHeight) :
    (Enh.update^[n] f).velocity.y = f.velocity.y + gravity * n := by
  induction n with
  | zero => simp
  | succ m ih =>
    have h1 := ih fun k hk => hair k (hk.trans (Nat.le_succ m))
    have hs : (Enh.update (Enh.update^[m] f)).position.y + (Enh.update^[m] f).height
        < screenHeight := by
      have h0 := hair (m + 1) le_rfl
      rw [Function.iterate_succ_apply'] at h0
      rwa [Enh.iterate_height_e]
    have h2 := Enh.update_velocity_y_airborne_e _ hs
    rw [Function.iterate_succ_apply', h2, h1]
    push_cast
    ring

/-- C1 counterexample: with the attacker off cooldown (and, in the
enhanced variant, not dodging) and the fighters overlapping vertically, at
an edge-to-edge gap of exactly `attackRange` (100 base, 120 enhanced) the
attack does NOT register a hit — the target's health is unchanged — in
both variants, because the overlap comparison `attackEndX > target.x` is
strict. -/
theorem claim_C1_counterexample :
    (bFighterA.attackCooldown ≤ 0 ∧
      Base.edgeGap bFighterA bTargetGap100 = 100 ∧
      bFighterA.position.y < bTargetGap100.position.y + bTargetGap100.height ∧
      bTargetGap100.position.y < bFighterA.position.y + bFighterA.height ∧
      (Base.attack bFighterA bTargetGap100).2.health = bTargetGap100.health ∧
      bTargetGap100.health = 100 ∧ bFighterA.attackDamage = 10) ∧
    (eFighterA.attackCooldown ≤ 0 ∧ eFighterA.isDodging = false ∧
      Enh.edgeGap eFighterA eTargetGap120 = 120 ∧
      eFighterA.position.y < eTargetGap120.position.y + eTargetGap120.height ∧
      eTargetGap120.position.y < eFighterA.position.y + eFighterA.height ∧
      (Enh.attack eFighterA eTargetGap120 1000).2.health = eTargetGap120.health ∧
      eTargetGap120.health = 200 ∧ eFighterA.attackDamage = 15) := by
  constructor <;>
    norm_num [bFighterA, bTargetGap100, eFighterA, eTargetGap120, Base.mkFighter,
      Enh.mkFighter, Base.edgeGap, Enh.edgeGap, Base.attack, Enh.attack, Base.hitTest,
      Enh.hitTest]

/-- C1 (amended): for both variants, with the attacker off cooldown (and,
in the enhanced variant, not dodging), the fighters overlapping vertically
and the target on the attacker's facing side (edge-to-edge gap ≥ 0): the
attack registers a hit — the target's health decreases by `attackDamage`,
clamped at 0 — exactly when the gap is strictly less than `attackRange`;
at a gap of `attackRange` or more (in particular `attackRange` and
`attackRange + 1`) the target's health is unchanged. -/
theorem claim_C1
    (aB tB : Base.Fighter) (aE tE : Enh.Fighter) (now : Int)
    (hcB : aB.attackCooldown ≤ 0)
    (hgB : 0 ≤ Base.edgeGap aB tB) (htwB : 0 < tB.width)
    (hv1B : aB.position.y < tB.position.y + tB.height)
    (hv2B : tB.position.y < aB.position.y + aB.height)
    (hcE : aE.attackCooldown ≤ 0) (hdE : aE.isDodging = false)
    (hgE : 0 ≤ Enh.edgeGap aE tE) (htwE : 0 < tE.width)
    (hv1E : aE.position.y < tE.position.y + tE.height)
    (hv2E : tE.position.y < aE.position.y + aE.height) :
    ((Base.edgeGap aB tB < 100 →
        (Base.attack aB tB).2.health =
          (if tB.health - aB.attackDamage < 0 then 0 else tB.health - aB.attackDamage)) ∧
      (100 ≤ Base.edgeGap aB tB → (Base.attack aB tB).2.health = tB.health)) ∧
    ((Enh.edgeGap aE tE < 120 →
        (Enh.attack aE tE now).2.health =
          (if tE.health - aE.attackDamage < 0 then 0 else tE.health - aE.attackDamage)) ∧
      (120 ≤ Enh.edgeGap aE tE → (Enh.attack aE tE now).2.health = tE.health)) := by
  have hiffB := Base.hitTest_gap_b aB tB hgB htwB hv1B hv2B
  have hiffE := Enh.hitTest_gap_e aE tE hgE htwE hv1E hv2E
  refine ⟨⟨fun h => ?_, fun h => ?_⟩, ⟨fun h => ?_, fun h => ?_⟩⟩
  · exact Base.attack_hit_health_b aB tB hcB (hiffB.mpr h)
  · exact Base.attack_miss_health_b aB tB fun hh => absurd (hiffB.mp hh) (not_lt.2 h)
  · exact Enh.attack_hit_health_e aE tE now hcE hdE (hiffE.mpr h)
  · exact Enh.attack_miss_health_e aE tE now fun hh => absurd (hiffE.mp hh) (not_lt.2 h)

/-- C1 witness: at edge-to-edge gaps of 99 and 119 (one less than the
range) the attacks land for 10 and 15 damage respectively. -/
theorem claim_C1_witness :
    (Base.attack bFighterA bTargetGap99).2.health = 90 ∧
    (Enh.attack eFighterA eTargetGap119 1000).2.health = 185 := by
  have h := claim_C1 bFighterA bTargetGap99 eFighterA eTargetGap119 1000
    (by norm_num [bFighterA, Base.mkFighter])
    (by norm_num [Base.edgeGap, bFighterA, bTargetGap99, Base.mkFighter])
    (by norm_num [bTargetGap99, Base.mkFighter])
    (by norm_num [bFighterA, bTargetGap99, Base.mkFighter])
    (by norm_num [bFighterA, bTargetGap99, Base.mkFighter])
    (by norm_num [eFighterA, Enh.mkFighter])
    (by norm_num [eFighterA, Enh.mkFighter])
    (by norm_num [Enh.edgeGap, eFighterA, eTargetGap119, Enh.mkFighter])
    (by norm_num [eTargetGap119, Enh.mkFighter])
    (by norm_num [eFighterA, eTargetGap119, Enh.mkFighter])
    (by norm_num [eFighterA, eTargetGap119, Enh.mkFighter])
  constructor
  · rw [h.1.1 (by norm_num [Base.edgeGap, bFighterA, bTargetGap99, Base.mkFighter])]
    norm_num [bFighterA, bTargetGap99, Base.mkFighter]
  · rw [h.2.1 (by norm_num [Enh.edgeGap, eFighterA, eTargetGap119, Enh.mkFighter])]
    norm_num [eFighterA, eTargetGap119, Enh.mkFighter]

/-- C2: in both variants `update` does not change health (so the health
invariant is preserved across it); after any `update` the position
satisfies `x ∈ [0, screenWidth - width]` and `y + height ≤ screenHeight`;
`attack` preserves the attacker's health and keeps the target's health in
`[0, maxHealth]`; and an attack that lands with `attackDamage` exceeding
the target's remaining health leaves the target at exactly 0 health. -/
theorem claim_C2 (fB : Base.Fighter) (fE : Enh.Fighter)
    (aB tB : Base.Fighter) (aE tE : Enh.Fighter) (now now2 : Int)
    (uB vB : Base.Fighter) (uE vE : Enh.Fighter)
    (hwB : fB.width ≤ screenWidth) (hwE : fE.width ≤ screenWidth)
    (h0B : 0 ≤ tB.health) (h1B : tB.health ≤ tB.maxHealth) (hdB : 0 ≤ aB.attackDamage)
    (h0E : 0 ≤ tE.health) (h1E : tE.health ≤ tE.maxHealth) (hdE : 0 ≤ aE.attackDamage)
    (hucB : uB.attackCooldown ≤ 0) (huhB : Base.hitTest uB vB)
    (hovB : vB.health < uB.attackDamage)
    (hucE : uE.attackCooldown ≤ 0) (hudE : uE.isDodging = false)
    (huhE : Enh.hitTest uE vE) (hovE : vE.health < uE.attackDamage) :
    ((Base.update fB).health = fB.health ∧ (Enh.update fE).health = fE.health) ∧
    (0 ≤ (Base.update fB).position.x ∧ (Base.update fB).position.x ≤ screenWidth - fB.width ∧
      (Base.update fB).position.y + fB.height ≤ screenHeight) ∧
    (0 ≤ (Enh.update fE).position.x ∧ (Enh.update fE).position.x ≤ screenWidth - fE.width ∧
      (Enh.update fE).position.y + fE.height ≤ screenHeight) ∧
    ((Base.attack aB tB).1.health = aB.health ∧
      0 ≤ (Base.attack aB tB).2.health ∧ (Base.attack aB tB).2.health ≤ tB.maxHealth) ∧
    ((Enh.attack aE tE now).1.health = aE.health ∧
      0 ≤ (Enh.attack aE tE now).2.health ∧ (Enh.attack aE tE now).2.health ≤ tE.maxHealth) ∧
    (Base.attack uB vB).2.health = 0 ∧ (Enh.attack uE vE now2).2.health = 0 := by
  have hxB := Base.update_x_bounds_b fB hwB
  have hxE := Enh.update_x_bounds_e fE hwE
  have hbB := Base.attack_health_bounds_b aB tB h0B h1B hdB
  have hbE := Enh.attack_health_bounds_e aE tE now h0E h1E hdE
  refine ⟨⟨Base.update_health_b fB, Enh.update_health_e fE⟩,
    ⟨hxB.1, hxB.2, Base.update_y_bound_b fB⟩,
    ⟨hxE.1, hxE.2, Enh.update_y_bound_e fE⟩,
    ⟨?_, hbB.1, hbB.2⟩, ⟨?_, hbE.1, hbE.2⟩,
    Base.attack_overkill_b uB vB hucB huhB hovB,
    Enh.attack_overkill_e uE vE now2 hucE hudE huhE hovE⟩
  · simp only [Base.attack]
    split_ifs <;> rfl
  · simp only [Enh.attack]
    split_ifs <;> rfl

/-- C2 witness: a landed 10-damage base attack on a 5-health target, and a
landed 15-damage enhanced attack on a 5-health target, both clamp to
exactly 0. -/
theorem claim_C2_witness :
    (Base.attack bFighterA bTargetLow).2.health = 0 ∧
    (Enh.attack eFighterA eTargetLow 0).2.health = 0 := by
  have h := claim_C2 bFighterA eFighterA bFighterA bTargetGap99 eFighterA eTargetGap119 0 0
    bFighterA bTargetLow eFighterA eTargetLow
    (by norm_num [bFighterA, Base.mkFighter, screenWidth])
    (by norm_num [eFighterA, Enh.mkFighter, screenWidth])
    (by norm_num [bTargetGap99, Base.mkFighter])
    (by norm_num [bTargetGap99, Base.mkFighter])
    (by norm_num [bFighterA, Base.mkFighter])
    (by norm_num [eTargetGap119, Enh.mkFighter])
    (by norm_num [eTargetGap119, Enh.mkFighter])
    (by norm_num [eFighterA, Enh.mkFighter])
    (by norm_num [bFighterA, Base.mkFighter])
    (by norm_num [Base.hitTest, bFighterA, bTargetLow, Base.mkFighter])
    (by norm_num [bFighterA, bTargetLow, Base.mkFighter])
    (by norm_num [eFighterA, Enh.mkFighter])
    (by norm_num [eFighterA, Enh.mkFighter])
    (by norm_num [Enh.hitTest, eFighterA, eTargetLow, Enh.mkFighter])
    (by norm_num [eFighterA, eTargetLow, Enh.mkFighter])
  exact ⟨h.2.2.2.2.2.1, h.2.2.2.2.2.2⟩

/-- C3: an attack issued while on cooldown (base variant), or while on
cooldown or dodging (enhanced variant), is a complete no-op: both fighters
are returned exactly as they were, so the target's health and the
attacker's `isAttacking`, `attackCooldown`, `comboCount` and
`lastAttackTime` are all unchanged. -/
theorem claim_C3 (aB tB : Base.Fighter) (aE tE : Enh.Fighter) (now : Int)
    (hB : 0 < aB.attackCooldown) (hE : 0 < aE.attackCooldown ∨ aE.isDodging = true) :
    Base.attack aB tB = (aB, tB) ∧ Enh.attack aE tE now = (aE, tE) :=
  ⟨Base.attack_noop_b aB tB hB, Enh.attack_noop_e aE tE now hE⟩

/-- C3 witness: a base fighter with one tick of cooldown left and a
mid-dodge enhanced fighter both fail to affect anything. -/
theorem claim_C3_witness :
    Base.attack bCooldown1 bTargetGap99 = (bCooldown1, bTargetGap99) ∧
    Enh.attack eDodging eTargetGap119 5 = (eDodging, eTargetGap119) :=
  claim_C3 bCooldown1 bTargetGap99 eDodging eTargetGap119 5
    (by norm_num [bCooldown1, Base.mkFighter]) (Or.inr rfl)

/-- C4: every eligible enhanced attack (off cooldown, not dodging) sets
`comboCount` to `(comboCount + 1) % 3` when the attack comes within 500 ms
of `lastAttackTime` with `canCombo` set, and to 0 otherwise; it then sets
`attackCooldown` to `30 - 5 * comboCount` (with the new count) and
`lastAttackTime` to `now`. Consequently three eligible attacks at
`now = 1000, 1100, 1200` (100 ms apart), each issued after the previous
attack resolved with the combo window open, produce the `comboCount`
sequence 0, 1, 2 and cooldowns 30, 25, 20. -/
theorem claim_C4 (a t : Enh.Fighter) (now : Int) (hc : a.attackCooldown ≤ 0)
    (hd : a.isDodging = false) :
    ((Enh.attack a t now).1.comboCount =
        (if now - a.lastAttackTime < 500 ∧ a.canCombo then (a.comboCount + 1).tmod 3 else 0) ∧
      (Enh.attack a t now).1.attackCooldown = 30 - (Enh.attack a t now).1.comboCount * 5 ∧
      (Enh.attack a t now).1.lastAttackTime = now) ∧
    (comboA1.comboCount = 0 ∧ comboA1.attackCooldown = 30 ∧
      comboA2.comboCount = 1 ∧ comboA2.attackCooldown = 25 ∧
      comboA3.comboCount = 2 ∧ comboA3.attackCooldown = 20) := by
  have h := Enh.attack_combo_char a t now hc hd
  refine ⟨⟨h.1, h.2.1, h.2.2.1⟩, ?_⟩
  norm_num [comboA1, comboA2, comboA3, Enh.attack, Enh.hitTest, Enh.mkFighter, eFighterA,
    eTargetGap120, Int.tmod]

/-- C4 witness: a fresh eligible attacker at `now = 42` records
`lastAttackTime = 42`, and the concrete three-attack scenario reaches
combo count 2 with cooldown 20. -/
theorem claim_C4_witness :
    (Enh.attack eFighterA eTargetGap120 42).1.lastAttackTime = 42 ∧
    comboA3.comboCount = 2 ∧ comboA3.attackCooldown = 20 := by
  have h := claim_C4 eFighterA eTargetGap120 42
    (by norm_num [eFighterA, Enh.mkFighter])
    (by norm_num [eFighterA, Enh.mkFighter])
  exact ⟨h.1.2.2, h.2.2.2.2.2.1, h.2.2.2.2.2.2⟩

/-- C5 counterexample: in the base variant, an update that decrements
`attackCooldown` from 1 to 0 while `isAttacking` is true does NOT clear
`isAttacking` in that same tick (the clearing branch is the `else` of the
decrement). -/
theorem claim_C5_counterexample :
    bCooldown1.attackCooldown = 1 ∧ bCooldown1.isAttacking = true ∧
    (Base.update bCooldown1).attackCooldown = 0 ∧
    (Base.update bCooldown1).isAttacking = true := by
  norm_num [bCooldown1, Base.update, Base.stepAnim, Base.stepPhysics, Base.stepCooldown,
    Base.mkFighter, noAnims, screenWidth, screenHeight, gravity, jsModIsZero, advanceFrame]

/-- C5 (amended): in the enhanced variant, the update in which
`attackCooldown` reaches 0 (entered with `attackCooldown ≤ 1`) while
`isAttacking` is true clears `isAttacking` and sets `canCombo` in that
same tick. In the base variant that tick leaves `isAttacking` set (and the
cooldown at 0); `isAttacking` is cleared on the first update entered with
`attackCooldown` already ≤ 0, i.e. one tick later. -/
theorem claim_C5 (fE : Enh.Fighter) (fB gB : Base.Fighter)
    (hE1 : fE.attackCooldown ≤ 1) (hE2 : fE.isAttacking = true)
    (hB1 : fB.attackCooldown = 1) (hB2 : fB.isAttacking = true)
    (hG1 : gB.attackCooldown ≤ 0) :
    ((Enh.update fE).isAttacking = false ∧ (Enh.update fE).canCombo = true) ∧
    ((Base.update fB).isAttacking = true ∧ (Base.update fB).attackCooldown = 0) ∧
    (Base.update gB).isAttacking = false := by
  refine ⟨Enh.update_clears fE hE1 hE2, ?_, Base.update_isAttacking_false gB hG1⟩
  have h := Base.update_cooldown_pos fB (by omega)
  refine ⟨h.1.trans hB2, ?_⟩
  rw [h.2, hB1]
  decide

/-- C5 witness: the concrete one-tick-left fighters of both variants, and
a base fighter with its cooldown already expired. -/
theorem claim_C5_witness :
    ((Enh.update eCooldown1).isAttacking = false ∧ (Enh.update eCooldown1).canCombo = true) ∧
    ((Base.update bCooldown1).isAttacking = true ∧
      (Base.update bCooldown1).attackCooldown = 0) ∧
    (Base.update bAttackDone).isAttacking = false :=
  claim_C5 eCooldown1 bCooldown1 bAttackDone (by norm_num [eCooldown1, Enh.mkFighter]) rfl
    rfl rfl (by norm_num [bAttackDone, Base.mkFighter])

/-- C6: in both variants, a fighter that starts with vertical velocity 0
and whose position stays strictly above the ground
(`position.y + height < screenHeight` after every tick) has vertical
velocity exactly `0.7 * n` after `n` updates — gravity is added every
airborne tick with no terminal-velocity cap. -/
theorem claim_C6 (fB : Base.Fighter) (fE : Enh.Fighter) (n : Nat)
    (hvB : fB.velocity.y = 0)
    (hairB : ∀ k, k ≤ n → (Base.update^[k] fB).position.y + fB.height < screenHeight)
    (hvE : fE.velocity.y = 0)
    (hairE : ∀ k, k ≤ n → (Enh.update^[k] fE).position.y + fE.height < screenHeight) :
    (Base.update^[n] fB).velocity.y = gravity * n ∧
    (Enh.update^[n] fE).velocity.y = gravity * n := by
  have hB := Base.iterate_vy_b fB n hairB
  have hE := Enh.iterate_vy_e fE n hairE
  rw [hvB] at hB
  rw [hvE] at hE
  constructor
  · rw [hB]
    ring
  · rw [hE]
    ring

/-- C6 witness: the concrete airborne fighters, one tick. -/
theorem claim_C6_witness :
    (Base.update^[1] bAirborne).velocity.y = gravity * 1 ∧
    (Enh.update^[1] eAirborne).velocity.y = gravity * 1 :=
  claim_C6 bAirborne eAirborne 1 rfl
    (by
      intro k hk
      interval_cases k <;>
        norm_num [bAirborne, Base.update, Base.stepAnim, Base.stepPhysics, Base.stepCooldown,
          Base.mkFighter, noAnims, screenWidth, screenHeight, gravity, jsModIsZero,
          advanceFrame])
    rfl
    (by
      intro k hk
      interval_cases k <;>
        norm_num [eAirborne, Enh.update, Enh.stepAnim, Enh.stepPhysics, Enh.stepCooldowns,
          Enh.stepDodge, Enh.setAnimation, Enh.mkFighter, noAnims, screenWidth, screenHeight,
          gravity, jsModIsZero, advanceFrame])

/-- C7: for an enhanced fighter whose `idleRight` and `idleLeft`
animations each have at least one frame, `draw` always yields a frame
(never faults); whenever the current animation or its current frame is
missing — as with the AI controller's empty-frame placeholder — it yields
exactly frame 0 of the idle animation matching `lastDirection`; and
`update` (whose frame-advance step is total, turning the empty-list
`% 0` into a NaN index rather than a crash) preserves the animation table,
so drawing after an update cannot fault either. -/
theorem claim_C7 (f : Enh.Fighter) (h : Enh.idleOk f) :
    (Enh.draw f).isSome ∧
    (Enh.curFrameMissing f → Enh.draw f = Enh.fallbackFrame f ∧
      (Enh.fallbackFrame f).isSome) ∧
    (Enh.update f).animations = f.animations ∧
    (Enh.draw (Enh.update f)).isSome :=
  ⟨Enh.draw_isSome f h,
    fun hm => ⟨Enh.draw_missing f hm, Enh.fallbackFrame_isSome f h⟩,
    Enh.update_animations f,
    Enh.draw_isSome _ (Enh.idleOk_update f h)⟩

/-- C7 witness: a fighter whose current animation is the AI's lazily
synthesized empty-frame attack placeholder draws the facing idle's frame
0. -/
theorem claim_C7_witness :
    (Enh.draw ePlaceholder).isSome ∧ Enh.draw ePlaceholder = Enh.fallbackFrame ePlaceholder := by
  have h := claim_C7 ePlaceholder
    ⟨⟨⟨[7], none⟩, rfl, by decide⟩, ⟨⟨[8], none⟩, rfl, by decide⟩⟩
  exact ⟨h.1, (h.2.1 (by rfl)).1⟩

/-- C8: enhanced hit resolution never reads the target's `isDodging`: for
any eligible attacker whose hitbox overlaps the target, the target loses
`attackDamage` health (clamped at 0) whatever its `isDodging` flag — in
particular the outcome with `isDodging = true` equals the outcome with
`isDodging = false`. -/
theorem claim_C8 (a t : Enh.Fighter) (now : Int) (b : Bool)
    (hc : a.attackCooldown ≤ 0) (hd : a.isDodging = false) (hh : Enh.hitTest a t) :
    (Enh.attack a { t with isDodging := b } now).2.health =
      (if t.health - a.attackDamage < 0 then 0 else t.health - a.attackDamage) ∧
    (Enh.attack a { t with isDodging := true } now).2.health =
      (Enh.attack a { t with isDodging := false } now).2.health := by
  constructor
  · rw [Enh.attack_hit_health_e a { t with isDodging := b } now hc hd hh]
  · rw [Enh.attack_hit_health_e a { t with isDodging := true } now hc hd hh,
      Enh.attack_hit_health_e a { t with isDodging := false } now hc hd hh]

/-- C8 witness: a mid-dodge target in range still takes the full 15
damage. -/
theorem claim_C8_witness :
    (Enh.attack eFighterA { eTargetNear with isDodging := true } 0).2.health = 185 := by
  have h := claim_C8 eFighterA eTargetNear 0 true
    (by norm_num [eFighterA, Enh.mkFighter])
    (by norm_num [eFighterA, Enh.mkFighter])
    (by norm_num [Enh.hitTest, eFighterA, eTargetNear, Enh.mkFighter])
  rw [h.1]
  norm_num [eFighterA, eTargetNear, Enh.mkFighter]

/-- C9: whenever the AI gate is open (`now ≥ nextActionTime`) and the
target is in close range (`|dx| < 150` and `|dy| < 100`), the attack
branch of `AIController.update` fires — `fighter.attack(target)` is
invoked — for every outcome of both random draws; the 30%-chance
extended-range branch cannot affect the decision. -/
theorem claim_C9 (ai : Enh.AIController) (fighter target : Enh.Fighter) (now : Int)
    (r1 r2 : ℚ) (hgate : ai.nextActionTime ≤ now)
    (hdx : |target.position.x - fighter.position.x| < 150)
    (hdy : |target.position.y - fighter.position.y| < 100) :
    (Enh.aiUpdate ai fighter target now r1 r2).attacked = true :=
  Enh.aiUpdate_attacks ai fighter target now r1 r2 hgate hdx hdy

/-- C9 witness: a grounded pair 60 px apart. The attack branch fires both
when the extended-range draw fails (`r1 = 1`) and when it succeeds
(`r1 = 0`). -/
theorem claim_C9_witness :
    (Enh.aiUpdate aiReady eAIFighter eAITarget 1000 1 0).attacked = true ∧
    (Enh.aiUpdate aiReady eAIFighter eAITarget 1000 0 1).attacked = true :=
  ⟨claim_C9 aiReady eAIFighter eAITarget 1000 1 0 (by decide)
      (by norm_num [eAIFighter, eAITarget, Enh.mkFighter])
      (by norm_num [eAIFighter, eAITarget, Enh.mkFighter]),
    claim_C9 aiReady eAIFighter eAITarget 1000 0 1 (by decide)
      (by norm_num [eAIFighter, eAITarget, Enh.mkFighter])
      (by norm_num [eAIFighter, eAITarget, Enh.mkFighter])⟩

/-- C10: in both variants `update` never changes health, and `attack`
leaves both fighters' position and velocity (and the attacker's health)
unchanged: the attacker differs from its input at most in `isAttacking`
and `attackCooldown` (plus `comboCount` and `lastAttackTime` in the
enhanced variant), and the target at most in `health`. -/
theorem claim_C10 (fB aB tB : Base.Fighter) (fE aE tE : Enh.Fighter) (now : Int) :
    ((Base.update fB).health = fB.health ∧ (Enh.update fE).health = fE.health) ∧
    ((Base.attack aB tB).1.position = aB.position ∧
      (Base.attack aB tB).1.velocity = aB.velocity ∧
      (Base.attack aB tB).2.position = tB.position ∧
      (Base.attack aB tB).2.velocity = tB.velocity ∧
      (Base.attack aB tB).1.health = aB.health) ∧
    ((Base.attack aB tB).1 =
      { aB with
        isAttacking := (Base.attack aB tB).1.isAttacking
        attackCooldown := (Base.attack aB tB).1.attackCooldown } ∧
      (Base.attack aB tB).2 = { tB with health := (Base.attack aB tB).2.health }) ∧
    ((Enh.attack aE tE now).1.position = aE.position ∧
      (Enh.attack aE tE now).1.velocity = aE.velocity ∧
      (Enh.attack aE tE now).2.position = tE.position ∧
      (Enh.attack aE tE now).2.velocity = tE.velocity ∧
      (Enh.attack aE tE now).1.health = aE.health) ∧
    ((Enh.attack aE tE now).1 =
      { aE with
        isAttacking := (Enh.attack aE tE now).1.isAttacking
        attackCooldown := (Enh.attack aE tE now).1.attackCooldown
        comboCount := (Enh.attack aE tE now).1.comboCount
        lastAttackTime := (Enh.attack aE tE now).1.lastAttackTime } ∧
      (Enh.attack aE tE now).2 = { tE with health := (Enh.attack aE tE now).2.health }) := by
  refine ⟨⟨Base.update_health_b fB, Enh.update_health_e fE⟩, ⟨?_, ?_, ?_, ?_, ?_⟩,
    ⟨Base.attack_fst_frame_b aB tB, Base.attack_snd_frame_b aB tB⟩, ⟨?_, ?_, ?_, ?_, ?_⟩,
    ⟨Enh.attack_fst_frame_e aE tE now, Enh.attack_snd_frame_e aE tE now⟩⟩ <;>
    first
      | (simp only [Base.attack]; split_ifs <;> rfl)
      | (simp only [Enh.attack]; split_ifs <;> rfl)

end AOT
